import Mathlib

/-!
Verification of the authentication and credential flow of `src/server.js`
(an Express backend: `/register`, `/login`, `/getUser` behind a JWT guard).

The JavaScript handlers are embedded shallowly:

* the Mongo collection is a `List UserRecord` in insertion order; `findOne`
  is `List.find?`; a Mongoose query condition whose value is `undefined` is
  stripped by Mongoose, so that condition matches every document — the
  optional query values below reflect this;
* `bcrypt` is an abstract `Hasher` (hash + compare); calling `bcrypt.hash`
  or `bcrypt.compare` with an `undefined` data argument rejects, which the
  route wrappers catch and turn into a 500 response;
* a JWT is a `Token` recording the claims payload, the expiry timestamp and
  the secret it was signed with; `jwt.verify` succeeds exactly when the
  secrets agree and the expiry has not passed;
* the `Authorization` header is its list of whitespace-separated segments
  (`header.split(" ")`); a segment is either a decodable signed token or raw
  text; `split(" ")[1]` is `List.get? 1`;
* `process.env` is the `Env` structure; `process.env.SECRET_KEY || ""` is
  `secretKey`.
-/

/-- One document of the `User` collection: `_id`, `username`,
`password` (the stored bcrypt hash) and `email`. -/
structure UserRecord where
  userID : Nat
  username : String
  password : String
  email : String
deriving DecidableEq, Repr

/-- The environment variables the auth routes read. -/
structure Env where
  MONGO_URI : Option String
  SECRET_KEY : Option String
deriving DecidableEq, Repr

/-- `const secret_key = process.env.SECRET_KEY || "";` -/
def secretKey (env : Env) : String :=
  match env.SECRET_KEY with
  | none => ""
  | some s => s

/-- Abstract model of `bcrypt`: `hash` is `bcrypt.hash(·, 10)` (one salted
run) and `compare` is `bcrypt.compare`. -/
structure Hasher where
  hash : String → String
  compare : String → String → Bool

/-- The contract of `bcrypt`: a candidate compares true against its own
hash, and a bcrypt hash string is never empty (it is 60 characters). -/
def Hasher.Sound (h : Hasher) : Prop :=
  (∀ p, h.compare p (h.hash p) = true) ∧ (∀ p, h.hash p ≠ "")

/-- A concrete hasher satisfying the bcrypt contract, used to evaluate the
model on closed inputs. -/
def modelHasher : Hasher where
  hash p := "$2b$10$" ++ p
  compare c s := s == "$2b$10$" ++ c

/-- A signed JWT: the claims payload set by `jwt.sign` (`userID`,
`username`, `email`), the expiry timestamp, and the secret that signed it
(the model of the signature). -/
structure Token where
  userID : Nat
  username : String
  email : String
  exp : Nat
  secret : String
deriving DecidableEq, Repr

/-- One whitespace-separated segment of an `Authorization` header: either a
string that decodes as a signed token, or raw undecodable text (such as the
scheme word `Bearer`). -/
inductive Seg where
  | raw (s : String)
  | tok (t : Token)
deriving DecidableEq, Repr

/-- The JSON bodies the auth routes produce. -/
inductive Body where
  | err (msg : String)
  | msg (m : String)
  | loginOk (token : Token) (userID : Nat)
  | profile (username email : String)
deriving DecidableEq, Repr

/-- An HTTP response: status code and JSON body. -/
structure Response where
  status : Nat
  body : Body
deriving DecidableEq, Repr

/-- A Mongoose query condition `{ field: v }` where `v` may be `undefined`:
Mongoose strips conditions whose value is `undefined`, so such a condition
matches every document. -/
def condMatches (q : Option String) (v : String) : Bool :=
  match q with
  | none => true
  | some s => v == s

/-- `User.findOne({ $or: [{ username }, { email }] })` from `/register`. -/
def findDup (store : List UserRecord) (username email : Option String) :
    Option UserRecord :=
  store.find? fun r => condMatches username r.username || condMatches email r.email

/-- `User.findOne({ username })` from `/login`. -/
def findByUsername (store : List UserRecord) (username : Option String) :
    Option UserRecord :=
  store.find? fun r => condMatches username r.username

/-- `User.findById(userID)` from `/getUser`. -/
def findById (store : List UserRecord) (userID : Nat) : Option UserRecord :=
  store.find? fun r => r.userID == userID

/-- `req.body` of `POST /register`; each field may be absent. -/
structure RegisterBody where
  username : Option String
  password : Option String
  email : Option String
deriving DecidableEq, Repr

/-- `req.body` of `POST /login`; each field may be absent. -/
structure LoginBody where
  username : Option String
  password : Option String
deriving DecidableEq, Repr

/-- The `POST /register` handler. Returns the response and the store after
the request. `freshId` is the `_id` Mongo assigns to a new document.
Paths, in source order: missing `MONGO_URI` → 503; a document matching
`username` OR `email` → 400; `bcrypt.hash(undefined)` rejects → caught →
500; `newUser.save()` fails Mongoose `required` validation when `username`
or `email` is absent or empty (or the hash were empty) → caught → 500;
otherwise the document is inserted and the route answers 201. -/
def register (env : Env) (hasher : Hasher) (store : List UserRecord)
    (freshId : Nat) (b : RegisterBody) : Response × List UserRecord :=
  if env.MONGO_URI.isNone then
    (⟨503, .err "Database not configured"⟩, store)
  else
    match findDup store b.username b.email with
    | some _ => (⟨400, .err "Username or email already exists"⟩, store)
    | none =>
      match b.password with
      | none => (⟨500, .err "Failed to register user"⟩, store)
      | some p =>
        let hashed := hasher.hash p
        match b.username, b.email with
        | some un, some em =>
          if un == "" || em == "" || hashed == "" then
            (⟨500, .err "Failed to register user"⟩, store)
          else
            (⟨201, .msg "User registered successfully"⟩,
             store ++ [⟨freshId, un, hashed, em⟩])
        | _, _ => (⟨500, .err "Failed to register user"⟩, store)

/-- The `POST /login` handler. Paths, in source order: missing `MONGO_URI`
→ 503; empty `secret_key` → 500; no document with this `username` → 400
"Invalid credentials"; `bcrypt.compare(undefined, hash)` rejects → caught →
500; hash mismatch → the same 400 "Invalid credentials"; otherwise
`jwt.sign({userID, username, email}, secret_key, {expiresIn: "1h"})` and
200 with the token and the user id. -/
def login (env : Env) (hasher : Hasher) (store : List UserRecord)
    (now : Nat) (b : LoginBody) : Response :=
  if env.MONGO_URI.isNone then
    ⟨503, .err "Database not configured"⟩
  else if secretKey env == "" then
    ⟨500, .err "Server misconfigured (no SECRET_KEY)"⟩
  else
    match findByUsername store b.username with
    | none => ⟨400, .err "Invalid credentials"⟩
    | some u =>
      match b.password with
      | none => ⟨500, .err "Failed to log in"⟩
      | some p =>
        if hasher.compare p u.password then
          ⟨200, .loginOk ⟨u.userID, u.username, u.email, now + 3600, secretKey env⟩
            u.userID⟩
        else
          ⟨400, .err "Invalid credentials"⟩

/-- `jwt.verify(token, secret)` at time `now` on the value found at
`header.split(" ")[1]`: `undefined` (no second segment) and undecodable
text fail; a token fails unless its signing secret equals `secret` and its
expiry is still in the future. -/
def verifyJWT (seg : Option Seg) (secret : String) (now : Nat) : Option Token :=
  match seg with
  | some (.tok t) =>
    if t.secret == secret && decide (now < t.exp) then some t else none
  | _ => none

/-- The `authenticateJWT` middleware: `.ok userID` means the guard attached
`req.userID` and called `next()`; `.error r` means it answered `r` itself.
Source order: empty `secret_key` → 500; falsy `authorization` header → 401;
`jwt.verify` failure on `split(" ")[1]` → 403. -/
def authenticateJWT (secret : String) (authHeader : Option (List Seg))
    (now : Nat) : Except Response Nat :=
  if secret == "" then
    .error ⟨500, .err "Server misconfigured (no SECRET_KEY)"⟩
  else
    match authHeader with
    | none => .error ⟨401, .err "Authorization header is missing"⟩
    | some segs =>
      match verifyJWT (segs.get? 1) secret now with
      | none => .error ⟨403, .err "Invalid token"⟩
      | some t => .ok t.userID

/-- The `GET /getUser` route: the guard runs first; the handler then checks
`MONGO_URI`, looks the record up by the verified id with
`.select("username email")`, and answers only the projected fields. -/
def getUser (env : Env) (store : List UserRecord)
    (authHeader : Option (List Seg)) (now : Nat) : Response :=
  match authenticateJWT (secretKey env) authHeader now with
  | .error r => r
  | .ok uid =>
    if env.MONGO_URI.isNone then
      ⟨503, .err "Database not configured"⟩
    else
      match findById store uid with
      | none => ⟨404, .err "User not found"⟩
      | some u => ⟨200, .profile u.username u.email⟩

/-- The boot sequence's interaction with the store and the secret:
`connectDB().catch(err => process.exit(1))` runs only when `MONGO_URI` is
set and kills the process if the connection fails (`dbConnectOk` is the
outcome of that external call); a missing `SECRET_KEY` only logs a warning
and never stops boot. -/
def boot (env : Env) (dbConnectOk : Bool) : Except String Unit :=
  if env.MONGO_URI.isSome && !dbConnectOk then
    .error "MongoDB connection failed"
  else
    .ok ()

/-- One inbound request to the auth surface, with its per-request data. -/
inductive Op where
  | register (b : RegisterBody) (freshId : Nat)
  | login (b : LoginBody) (now : Nat)
  | getUser (authHeader : Option (List Seg)) (now : Nat)

/-- The store after handling one request: `/register` is the only route
containing a write (`newUser.save()`); `/login` and `/getUser` only read. -/
def stepStore (env : Env) (hasher : Hasher) (store : List UserRecord) :
    Op → List UserRecord
  | .register b freshId => (register env hasher store freshId b).2
  | .login _ _ => store
  | .getUser _ _ => store

/-- The store after handling a sequence of requests. -/
def runOps (env : Env) (hasher : Hasher) (store : List UserRecord) :
    List Op → List UserRecord
  | [] => store
  | op :: ops => runOps env hasher (stepStore env hasher store op) ops

/-- A fully configured environment, for evaluating the model on closed
inputs. -/
def envM : Env := ⟨some "mongodb://db", some "k"⟩

/-- A one-user store as left by a successful registration of `alice`. -/
def storeAlice : List UserRecord :=
  [⟨7, "alice", modelHasher.hash "p4ss", "a@x.com"⟩]

/-- The token `login` issues to `alice` against `envM` at time 0. -/
def tokAlice : Token := ⟨7, "alice", "a@x.com", 3600, "k"⟩

/-- An environment with the store configured but no signing secret. -/
def envNoKey : Env := ⟨some "mongodb://db", none⟩

/-! ## Helper lemmas -/

theorem modelHasher_sound : modelHasher.Sound := by
  constructor
  · intro p
    simp [modelHasher]
  · intro p h
    have hl := congrArg String.length h
    simp [modelHasher, String.length_append] at hl
    exact absurd hl.1 (by decide)

theorem isNone_false_of_isSome {o : Option String} (h : o.isSome) :
    o.isNone = false := by
  cases o with
  | none => simp at h
  | some s => rfl

theorem findDup_none_no_username_match (store : List UserRecord)
    (un em : String) (hdup : findDup store (some un) (some em) = none) :
    findByUsername store (some un) = none := by
  unfold findDup at hdup
  unfold findByUsername
  rw [List.find?_eq_none]
  intro r hr hc
  have h2 := List.find?_eq_none.mp hdup r hr
  simp [condMatches] at h2 hc
  exact h2.1 hc

theorem find_username_append_new (store : List UserRecord) (un em : String)
    (x : UserRecord) (hdup : findDup store (some un) (some em) = none)
    (hx : x.username = un) :
    findByUsername (store ++ [x]) (some un) = some x := by
  have hnone := findDup_none_no_username_match store un em hdup
  unfold findByUsername at hnone ⊢
  rw [List.find?_append, hnone]
  simp [condMatches, hx]

/-! ## Claims -/

/-- C2: `Login` with a correct username but wrong password produces exactly
the same response (status and body) as `Login` with a username for which no
record exists — the two failure causes are indistinguishable to the
caller. -/
theorem login_failures_indistinguishable (env : Env) (hasher : Hasher)
    (store : List UserRecord) (now now2 : Nat) (u1 p1 u2 : String)
    (p2 : Option String) (r : UserRecord)
    (hfound : findByUsername store (some u1) = some r)
    (hwrong : hasher.compare p1 r.password = false)
    (hmissing : findByUsername store (some u2) = none) :
    login env hasher store now ⟨some u1, some p1⟩ =
      login env hasher store now2 ⟨some u2, p2⟩ := by
  unfold login
  by_cases h1 : env.MONGO_URI.isNone
  · simp [h1]
  · by_cases h2 : secretKey env == ""
    · simp [h1, h2]
    · simp [h1, h2, hfound, hmissing, hwrong]

/-- C2 witness: a wrong password for `alice` and a login as the absent
`bob` get the very same response. -/
theorem login_failures_indistinguishable_witness :
    findByUsername storeAlice (some "alice") =
      some ⟨7, "alice", modelHasher.hash "p4ss", "a@x.com"⟩ ∧
    modelHasher.compare "wrong" (modelHasher.hash "p4ss") = false ∧
    findByUsername storeAlice (some "bob") = none ∧
    login envM modelHasher storeAlice 0 ⟨some "alice", some "wrong"⟩ =
      login envM modelHasher storeAlice 99 ⟨some "bob", some "whatever"⟩ :=
  ⟨by decide, by decide, by decide,
   login_failures_indistinguishable envM modelHasher storeAlice 0 99
     "alice" "wrong" "bob" (some "whatever")
     ⟨7, "alice", modelHasher.hash "p4ss", "a@x.com"⟩
     (by decide) (by decide) (by decide)⟩

/-- C3: whenever the store holds a record whose username or email matches
the registration input, `Register` answers 400 "Username or email already
exists" and leaves the store unchanged — in particular for a same-username,
different-email retry and for a same-email, different-username retry. -/
theorem register_duplicate_fails (env : Env) (hasher : Hasher)
    (store : List UserRecord) (freshId : Nat) (un em : String)
    (p : Option String) (r : UserRecord)
    (hdb : env.MONGO_URI.isSome)
    (hmem : r ∈ store) (hmatch : r.username = un ∨ r.email = em) :
    register env hasher store freshId ⟨some un, p, some em⟩ =
      (⟨400, .err "Username or email already exists"⟩, store) := by
  have hfind : (findDup store (some un) (some em)).isSome := by
    rw [findDup, List.find?_isSome]
    refine ⟨r, hmem, ?_⟩
    simp [condMatches]
    rcases hmatch with h | h
    · exact Or.inl h
    · exact Or.inr h
  obtain ⟨r2, hr2⟩ := Option.isSome_iff_exists.mp hfind
  unfold register
  rw [isNone_false_of_isSome hdb, hr2]
  rfl

/-- C3 witness: re-registering `alice` with a different email fails with
the duplicate error, and registering `carol` under alice's email does
too. -/
theorem register_duplicate_fails_witness :
    envM.MONGO_URI.isSome = true ∧
    (⟨7, "alice", modelHasher.hash "p4ss", "a@x.com"⟩ : UserRecord) ∈
      storeAlice ∧
    register envM modelHasher storeAlice 8
        ⟨some "alice", some "other", some "b@y.com"⟩ =
      (⟨400, .err "Username or email already exists"⟩, storeAlice) ∧
    register envM modelHasher storeAlice 9
        ⟨some "carol", some "other", some "a@x.com"⟩ =
      (⟨400, .err "Username or email already exists"⟩, storeAlice) :=
  ⟨by decide, by decide,
   register_duplicate_fails envM modelHasher storeAlice 8 "alice" "b@y.com"
     (some "other") ⟨7, "alice", modelHasher.hash "p4ss", "a@x.com"⟩
     (by decide) (by decide) (Or.inl rfl),
   register_duplicate_fails envM modelHasher storeAlice 9 "carol" "a@x.com"
     (some "other") ⟨7, "alice", modelHasher.hash "p4ss", "a@x.com"⟩
     (by decide) (by decide) (Or.inr rfl)⟩

/-- C4: on the guarded `GetProfile` route, a missing `Authorization` header
yields 401 and a present header whose token fails verification — including
a header with no second segment — yields 403; in each case the response is
the same for every store, so the handler is never consulted. -/
theorem getUser_guard_errors (env : Env) (hsec : secretKey env ≠ "") :
    (∀ (store : List UserRecord) (now : Nat),
      getUser env store none now =
        ⟨401, .err "Authorization header is missing"⟩) ∧
    (∀ (store : List UserRecord) (now : Nat) (segs : List Seg),
      verifyJWT (segs.get? 1) (secretKey env) now = none →
      getUser env store (some segs) now = ⟨403, .err "Invalid token"⟩) ∧
    (∀ (store : List UserRecord) (now : Nat) (s : String),
      getUser env store (some [Seg.raw s]) now =
        ⟨403, .err "Invalid token"⟩) := by
  have hb : (secretKey env == "") = false := beq_eq_false_iff_ne.mpr hsec
  refine ⟨fun store now => ?_, fun store now segs hv => ?_, fun store now s => ?_⟩
  · simp [getUser, authenticateJWT, hb]
  · rw [List.get?_eq_getElem?] at hv
    simp [getUser, authenticateJWT, hb, hv]
  · simp [getUser, authenticateJWT, verifyJWT, hb]

/-- C4 witness: against a configured secret, a request with no header gets
401 and a request whose header holds only the scheme word gets 403,
whatever the store holds. -/
theorem getUser_guard_errors_witness :
    secretKey envM ≠ "" ∧
    getUser envM storeAlice none 0 =
      ⟨401, .err "Authorization header is missing"⟩ ∧
    getUser envM storeAlice (some [Seg.raw "Bearer"]) 0 =
      ⟨403, .err "Invalid token"⟩ :=
  ⟨by decide,
   (getUser_guard_errors envM (by decide)).1 storeAlice 0,
   (getUser_guard_errors envM (by decide)).2.2 storeAlice 0 "Bearer"⟩

/-- C9: the guard never compares the scheme word: it reads only the second
whitespace-separated segment, so any first segment whatsoever in front of a
verifying token authenticates, and swapping the first segment never changes
the guard's answer. -/
theorem guard_ignores_scheme_word (secret : String) (seg0 seg1 : Seg)
    (rest : List Seg) (t : Token) (now : Nat)
    (hsec : secret ≠ "") (hts : t.secret = secret) (hfresh : now < t.exp) :
    authenticateJWT secret (some (seg0 :: Seg.tok t :: rest)) now =
      .ok t.userID ∧
    (∀ rest2 : List Seg,
      authenticateJWT secret (some (seg0 :: rest2)) now =
        authenticateJWT secret (some (seg1 :: rest2)) now) := by
  have hb : (secret == "") = false := beq_eq_false_iff_ne.mpr hsec
  constructor
  · simp [authenticateJWT, verifyJWT, hb, hts, hfresh]
  · intro rest2
    simp [authenticateJWT, hb]

/-- C9 witness: a header reading `NotBearer <token>` authenticates alice's
token just as well. -/
theorem guard_ignores_scheme_word_witness :
    ("k" : String) ≠ "" ∧ tokAlice.secret = "k" ∧ (100 < tokAlice.exp) ∧
    authenticateJWT "k" (some [Seg.raw "NotBearer", Seg.tok tokAlice]) 100 =
      .ok tokAlice.userID :=
  ⟨by decide, by decide, by decide,
   (guard_ignores_scheme_word "k" (Seg.raw "NotBearer") (Seg.raw "Bearer")
     [] tokAlice 100 (by decide) (by decide) (by decide)).1⟩

/-- C8: across any sequence of requests, the store only grows at the end —
`Register` is the sole writer and only ever appends one record — so every
record present before the sequence is still present, unchanged, after
it. -/
theorem store_only_grows (env : Env) (hasher : Hasher) (ops : List Op)
    (store : List UserRecord) :
    (∃ tail, runOps env hasher store ops = store ++ tail) ∧
    (∀ r ∈ store, r ∈ runOps env hasher store ops) := by
  have main : ∀ (ops : List Op) (store : List UserRecord),
      ∃ tail, runOps env hasher store ops = store ++ tail := by
    intro ops
    induction ops with
    | nil => intro store; exact ⟨[], by simp [runOps]⟩
    | cons op ops ih =>
      intro store
      have hstep : ∃ t0, stepStore env hasher store op = store ++ t0 := by
        cases op with
        | register b freshId =>
          unfold stepStore register
          by_cases h1 : env.MONGO_URI.isNone
          · exact ⟨[], by simp [h1]⟩
          · simp only [h1]
            cases hfd : findDup store b.username b.email with
            | some r => exact ⟨[], by simp⟩
            | none =>
              cases hp : b.password with
              | none => exact ⟨[], by simp⟩
              | some p =>
                cases hu : b.username with
                | none => exact ⟨[], by simp⟩
                | some un =>
                  cases he : b.email with
                  | none => exact ⟨[], by simp⟩
                  | some em =>
                    by_cases hz : (un == "" || em == "" || hasher.hash p == "") = true
                    · exact ⟨[], by simp [hz]⟩
                    · exact ⟨[⟨freshId, un, hasher.hash p, em⟩],
                        by simp [hz]⟩
        | login b now => exact ⟨[], by simp [stepStore]⟩
        | getUser h now => exact ⟨[], by simp [stepStore]⟩
      obtain ⟨t0, ht0⟩ := hstep
      obtain ⟨t1, ht1⟩ := ih (stepStore env hasher store op)
      refine ⟨t0 ++ t1, ?_⟩
      show runOps env hasher (stepStore env hasher store op) ops = _
      rw [ht1, ht0, List.append_assoc]
  obtain ⟨tail, htail⟩ := main ops store
  refine ⟨⟨tail, htail⟩, fun r hr => ?_⟩
  rw [htail]
  exact List.mem_append_left tail hr

/-- C1: a valid, non-duplicate registration answers 201 and appends one
record, and a login with the same username and password then answers 200
with a token whose embedded username and email are exactly the ones
supplied at registration. -/
theorem register_then_login_roundtrip (env : Env) (hasher : Hasher)
    (store : List UserRecord) (freshId : Nat) (un p em : String) (now : Nat)
    (hdb : env.MONGO_URI.isSome)
    (hsec : secretKey env ≠ "")
    (hh : hasher.Sound)
    (hun : un ≠ "") (hem : em ≠ "")
    (hdup : findDup store (some un) (some em) = none) :
    register env hasher store freshId ⟨some un, some p, some em⟩ =
      (⟨201, .msg "User registered successfully"⟩,
       store ++ [⟨freshId, un, hasher.hash p, em⟩]) ∧
    login env hasher
        (register env hasher store freshId ⟨some un, some p, some em⟩).2 now
        ⟨some un, some p⟩ =
      ⟨200, .loginOk ⟨freshId, un, em, now + 3600, secretKey env⟩ freshId⟩ := by
  have h1 : env.MONGO_URI.isNone = false := isNone_false_of_isSome hdb
  have hbu : (un == "") = false := beq_eq_false_iff_ne.mpr hun
  have hbe : (em == "") = false := beq_eq_false_iff_ne.mpr hem
  have hbh : (hasher.hash p == "") = false := beq_eq_false_iff_ne.mpr (hh.2 p)
  have hbs : (secretKey env == "") = false := beq_eq_false_iff_ne.mpr hsec
  have hreg : register env hasher store freshId ⟨some un, some p, some em⟩ =
      (⟨201, .msg "User registered successfully"⟩,
       store ++ [⟨freshId, un, hasher.hash p, em⟩]) := by
    unfold register
    rw [h1]
    simp only [Bool.false_eq_true, if_false, hdup]
    simp [hbu, hbe, hbh]
  refine ⟨hreg, ?_⟩
  rw [hreg]
  have hfind : findByUsername (store ++ [⟨freshId, un, hasher.hash p, em⟩])
      (some un) = some ⟨freshId, un, hasher.hash p, em⟩ :=
    find_username_append_new store un em _ hdup rfl
  unfold login
  rw [h1]
  simp only [Bool.false_eq_true, if_false, hbs, hfind]
  simp [hh.1 p]

/-- C1 witness: registering alice into the empty store and logging in with
her password issues her token with the registered username and email. -/
theorem register_then_login_roundtrip_witness :
    register envM modelHasher [] 7 ⟨some "alice", some "p4ss", some "a@x.com"⟩ =
      (⟨201, .msg "User registered successfully"⟩,
       [] ++ [⟨7, "alice", modelHasher.hash "p4ss", "a@x.com"⟩]) ∧
    login envM modelHasher
        (register envM modelHasher [] 7
          ⟨some "alice", some "p4ss", some "a@x.com"⟩).2 0
        ⟨some "alice", some "p4ss"⟩ =
      ⟨200, .loginOk ⟨7, "alice", "a@x.com", 0 + 3600, secretKey envM⟩ 7⟩ :=
  register_then_login_roundtrip envM modelHasher [] 7 "alice" "p4ss"
    "a@x.com" 0 (by decide) (by decide) modelHasher_sound (by decide)
    (by decide) rfl

/-- C5: a token issued by a successful `Login` passes the `GetProfile`
guard while its hour is not up; once its expiry has passed the guard
answers 403; and a token signed under a secret different from the server's
is answered 403 as well. -/
theorem issued_token_lifecycle (env : Env) (hasher : Hasher)
    (store : List UserRecord) (now : Nat) (b : LoginBody) (t : Token)
    (uid : Nat)
    (hlogin : login env hasher store now b = ⟨200, .loginOk t uid⟩) :
    (∀ (seg0 : Seg) (now2 : Nat), now2 < t.exp →
      authenticateJWT (secretKey env) (some [seg0, Seg.tok t]) now2 =
        .ok t.userID) ∧
    (∀ (seg0 : Seg) (now2 : Nat), t.exp ≤ now2 →
      authenticateJWT (secretKey env) (some [seg0, Seg.tok t]) now2 =
        .error ⟨403, .err "Invalid token"⟩) ∧
    (∀ (seg0 : Seg) (now2 : Nat) (t2 : Token), t2.secret ≠ secretKey env →
      authenticateJWT (secretKey env) (some [seg0, Seg.tok t2]) now2 =
        .error ⟨403, .err "Invalid token"⟩) := by
  have hkey : secretKey env ≠ "" ∧ t.secret = secretKey env := by
    unfold login at hlogin
    split at hlogin
    · simp at hlogin
    split at hlogin
    next h2 => simp at hlogin
    next h2 =>
      have hs : secretKey env ≠ "" := by
        intro he
        exact h2 (by rw [he]; rfl)
      split at hlogin
      · simp at hlogin
      split at hlogin
      · simp at hlogin
      split at hlogin
      next hc =>
        simp only [Response.mk.injEq, Body.loginOk.injEq] at hlogin
        exact ⟨hs, by rw [← hlogin.2.1]⟩
      next hc => simp at hlogin
  have hbs : (secretKey env == "") = false := beq_eq_false_iff_ne.mpr hkey.1
  refine ⟨fun seg0 now2 hfresh => ?_, fun seg0 now2 hexp => ?_,
    fun seg0 now2 t2 hne => ?_⟩
  · simp [authenticateJWT, verifyJWT, hbs, hkey.2, hfresh]
  · simp [authenticateJWT, verifyJWT, hbs, Nat.not_lt.mpr hexp]
  · simp [authenticateJWT, verifyJWT, hbs, hne]

/-- C5 witness: alice's freshly issued token passes the guard at minute
two, is refused at the hour mark, and a copy signed under another secret is
refused outright. -/
theorem issued_token_lifecycle_witness :
    login envM modelHasher storeAlice 0 ⟨some "alice", some "p4ss"⟩ =
      ⟨200, .loginOk tokAlice 7⟩ ∧
    authenticateJWT (secretKey envM)
        (some [Seg.raw "Bearer", Seg.tok tokAlice]) 100 =
      .ok tokAlice.userID ∧
    authenticateJWT (secretKey envM)
        (some [Seg.raw "Bearer", Seg.tok tokAlice]) 3600 =
      .error ⟨403, .err "Invalid token"⟩ ∧
    authenticateJWT (secretKey envM)
        (some [Seg.raw "Bearer",
               Seg.tok ⟨7, "alice", "a@x.com", 9999, "other"⟩]) 100 =
      .error ⟨403, .err "Invalid token"⟩ :=
  have h := issued_token_lifecycle envM modelHasher storeAlice 0
    ⟨some "alice", some "p4ss"⟩ tokAlice 7 (by decide)
  ⟨by decide, h.1 (Seg.raw "Bearer") 100 (by decide),
   h.2.1 (Seg.raw "Bearer") 3600 (by decide),
   h.2.2 (Seg.raw "Bearer") 100 ⟨7, "alice", "a@x.com", 9999, "other"⟩
     (by decide)⟩

/-- C6 counterexample: with the signing secret absent (store configured),
`Login` answers status 500 — not the 503 a service-unavailable response
would carry. -/
theorem missing_secret_answers_500_not_503 :
    (login envNoKey modelHasher [] 0 ⟨some "alice", some "p4ss"⟩).status =
      500 ∧
    ¬ (login envNoKey modelHasher [] 0 ⟨some "alice", some "p4ss"⟩).status =
      503 := by
  decide

/-- C6 (amended): if the signing secret is absent, boot still succeeds
exactly as it would with a secret (the absence only logs a warning), and
the routes that need the secret answer a 500 "Server misconfigured (no
SECRET_KEY)" error instead of succeeding or crashing. -/
theorem missing_secret_degrades (env : Env) (hasher : Hasher)
    (store : List UserRecord) (now : Nat) (b : LoginBody)
    (header : Option (List Seg)) (now2 : Nat) (dbOk : Bool)
    (hsec : env.SECRET_KEY = none) :
    boot env dbOk = boot ⟨env.MONGO_URI, some "configured"⟩ dbOk ∧
    (env.MONGO_URI.isSome →
      login env hasher store now b =
        ⟨500, .err "Server misconfigured (no SECRET_KEY)"⟩) ∧
    getUser env store header now2 =
      ⟨500, .err "Server misconfigured (no SECRET_KEY)"⟩ := by
  have hk : secretKey env = "" := by simp [secretKey, hsec]
  refine ⟨rfl, fun hdb => ?_, ?_⟩
  · unfold login
    rw [isNone_false_of_isSome hdb]
    simp [hk]
  · simp [getUser, authenticateJWT, hk]

/-- C6 witness: with `MONGO_URI` set and `SECRET_KEY` unset, boot
succeeds and both `Login` and the guarded `GetProfile` answer the 500
misconfiguration error. -/
theorem missing_secret_degrades_witness :
    envNoKey.SECRET_KEY = none ∧
    boot envNoKey true = boot ⟨envNoKey.MONGO_URI, some "configured"⟩ true ∧
    login envNoKey modelHasher storeAlice 0 ⟨some "alice", some "p4ss"⟩ =
      ⟨500, .err "Server misconfigured (no SECRET_KEY)"⟩ ∧
    getUser envNoKey storeAlice
        (some [Seg.raw "Bearer", Seg.tok tokAlice]) 10 =
      ⟨500, .err "Server misconfigured (no SECRET_KEY)"⟩ :=
  have h := missing_secret_degrades envNoKey modelHasher storeAlice 0
    ⟨some "alice", some "p4ss"⟩ (some [Seg.raw "Bearer", Seg.tok tokAlice])
    10 true rfl
  ⟨rfl, h.1, h.2.1 (by decide), h.2.2⟩

/-- C7: a successful `GetProfile` answers 200 with exactly the username
and email of the looked-up record, and the answer is unchanged under any
rewriting of the stored password hashes — the hash never reaches the
response, for any store state. -/
theorem getUser_projects_username_email (env : Env)
    (store : List UserRecord) (header : Option (List Seg)) (now uid : Nat)
    (u : UserRecord)
    (hauth : authenticateJWT (secretKey env) header now = .ok uid)
    (hdb : env.MONGO_URI.isSome)
    (hfound : findById store uid = some u) :
    getUser env store header now = ⟨200, .profile u.username u.email⟩ ∧
    (∀ pw : UserRecord → String,
      getUser env (store.map fun r => ⟨r.userID, r.username, pw r, r.email⟩)
          header now = ⟨200, .profile u.username u.email⟩) := by
  have h1 : env.MONGO_URI.isNone = false := isNone_false_of_isSome hdb
  constructor
  · simp [getUser, hauth, h1, hfound]
  · intro pw
    have hmap : findById
        (store.map fun r => ⟨r.userID, r.username, pw r, r.email⟩) uid =
        some ⟨u.userID, u.username, pw u, u.email⟩ := by
      unfold findById at hfound ⊢
      rw [List.find?_map]
      have hcomp : ((fun r : UserRecord => r.userID == uid) ∘
          (fun r : UserRecord =>
            (⟨r.userID, r.username, pw r, r.email⟩ : UserRecord))) =
          fun r : UserRecord => r.userID == uid := rfl
      rw [hcomp, hfound]
      rfl
    simp [getUser, hauth, h1, hmap]

/-- C7 witness: fetching alice's profile with her token yields only her
username and email. -/
theorem getUser_projects_username_email_witness :
    authenticateJWT (secretKey envM)
        (some [Seg.raw "Bearer", Seg.tok tokAlice]) 100 = .ok 7 ∧
    findById storeAlice 7 =
      some ⟨7, "alice", modelHasher.hash "p4ss", "a@x.com"⟩ ∧
    getUser envM storeAlice
        (some [Seg.raw "Bearer", Seg.tok tokAlice]) 100 =
      ⟨200, .profile "alice" "a@x.com"⟩ :=
  ⟨by rfl, by decide,
   (getUser_projects_username_email envM storeAlice
     (some [Seg.raw "Bearer", Seg.tok tokAlice]) 100 7
     ⟨7, "alice", modelHasher.hash "p4ss", "a@x.com"⟩
     (by rfl) (by decide) (by decide)).1⟩

/-- C10: `Register` never answers a missing-field validation error: its
only 400 is the duplicate answer, produced exactly when some stored record
matches the (possibly absent) queried fields; and a request whose password
is absent but that passes the duplicate query surfaces only as the 500
from the failed hashing call, with the store untouched. -/
theorem register_skips_presence_validation (env : Env) (hasher : Hasher)
    (store : List UserRecord) (freshId : Nat) (b : RegisterBody) :
    ((register env hasher store freshId b).1.status = 400 →
      (register env hasher store freshId b).1 =
        ⟨400, .err "Username or email already exists"⟩ ∧
      ∃ r, r ∈ store ∧
        (condMatches b.username r.username ||
         condMatches b.email r.email) = true) ∧
    (env.MONGO_URI.isSome → b.password = none →
      findDup store b.username b.email = none →
      register env hasher store freshId b =
        (⟨500, .err "Failed to register user"⟩, store)) := by
  constructor
  · intro h400
    unfold register at h400 ⊢
    by_cases h1 : env.MONGO_URI.isNone
    · rw [if_pos h1] at h400
      simp at h400
    · rw [if_neg h1] at h400 ⊢
      cases hfd : findDup store b.username b.email with
      | some r =>
        simp only [hfd] at h400 ⊢
        have hfd2 : List.find?
            (fun r => condMatches b.username r.username ||
              condMatches b.email r.email) store = some r := hfd
        have hpred := List.find?_some
          (p := fun r : UserRecord => condMatches b.username r.username ||
            condMatches b.email r.email) hfd2
        exact ⟨trivial, r, List.mem_of_find?_eq_some hfd2, hpred⟩
      | none =>
        simp only [hfd] at h400
        cases hp : b.password with
        | none => simp [hp] at h400
        | some p =>
          cases hu : b.username with
          | none => simp [hp, hu] at h400
          | some un =>
            cases he : b.email with
            | none => simp [hp, hu, he] at h400
            | some em =>
              by_cases hz :
                  (un == "" || em == "" || hasher.hash p == "") = true
              · simp [hp, hu, he, hz] at h400
              · simp [hp, hu, he, hz] at h400
  · intro hdb hpw hdup
    unfold register
    rw [isNone_false_of_isSome hdb]
    simp [hdup, hpw]

/-- C10 witness: registering a second "alice" with no password still hits
only the duplicate 400, and a fresh user with no password gets the 500
from hashing — never a missing-field 400. -/
theorem register_skips_presence_validation_witness :
    (register envM modelHasher storeAlice 9
        ⟨some "alice", none, some "b@y.com"⟩).1.status = 400 ∧
    (register envM modelHasher storeAlice 9
        ⟨some "alice", none, some "b@y.com"⟩).1 =
      ⟨400, .err "Username or email already exists"⟩ ∧
    register envM modelHasher storeAlice 10
        ⟨some "bob", none, some "b@y.com"⟩ =
      (⟨500, .err "Failed to register user"⟩, storeAlice) :=
  ⟨by decide,
   ((register_skips_presence_validation envM modelHasher storeAlice 9
     ⟨some "alice", none, some "b@y.com"⟩).1 (by decide)).1,
   (register_skips_presence_validation envM modelHasher storeAlice 10
     ⟨some "bob", none, some "b@y.com"⟩).2 (by decide) rfl (by decide)⟩
